import Mathlib

/-!
# DFRobot I2C RGB button driver

A shallow embedding of `components/dfrobot_i2c_rgbbutton/dfrobot_i2c_rgbbutton.cpp`.

* `uint8_t` values are `Fin 256`; a cast to `uint8_t` is a reduction modulo `2 ^ 8`.
* `unsigned long` arguments are natural numbers: the functions only shift and mask them,
  so the results are the same for every width of the type.
* The driver object is a record of its fields.  Each member function takes the driver, the
  bus and the answers of the transport (status code and buffer content of a read, status
  code of a write) and gives back its return value, the driver and the bus afterwards.
* The bus keeps a chronological log of the register operations issued and the registers the
  device has committed.
* Logging calls (`ESP_LOGx`) have no effect on any of this and are left out.
-/

namespace DFRobot_i2c_RGBButton

/-- A `uint8_t` value. -/
abbrev Byte := Fin 256

/-- The cast `static_cast<uint8_t>(n)`. -/
def toUInt8 (n : Nat) : Byte := ⟨n % 256, Nat.mod_lt n (by decide)⟩

/-- Modelled from the spec: the status code of a transport call (`i2c::ErrorCode`), declared
by the host framework and not among the sources.  The driver only ever compares it with
`ERROR_OK`; every other constructor is a transport failure. -/
inductive ErrorCode where
  | ERROR_OK
  | ERROR_INVALID_ARGUMENT
  | ERROR_NOT_ACKNOWLEDGED
  | ERROR_TIMEOUT
  | ERROR_TOO_LARGE
  | ERROR_UNKNOWN
  | ERROR_CRC
  deriving DecidableEq, Repr

def RGBBUTTON_PART_ID : Nat := 0x43DF

def RGBBUTTON_I2C_ADDR_REG : Byte := 0x00

def RGBBUTTON_RED_REG : Byte := 0x01

def RGBBUTTON_GREEN_REG : Byte := 0x02

def RGBBUTTON_BLUE_REG : Byte := 0x03

def RGBBUTTON_BUTTON_SIGNAL_REG : Byte := 0x04

def RGBBUTTON_PID_MSB_REG : Byte := 0x09

/-- Modelled from the spec: the notification sink (the framework's binary sensor), with the
two queries the driver uses, "has a state ever been recorded" and "what is the last recorded
state".  `received` is the history of the values published to it, oldest first. -/
structure BinarySensor where
  has_state : Bool
  state : Bool
  received : List Bool
  deriving DecidableEq, Repr

/-- Modelled from the spec: publishing a value makes the sink hold it and counts as one
notification. -/
def BinarySensor.publish_state (sensor : BinarySensor) (v : Bool) : BinarySensor :=
  { has_state := true, state := v, received := sensor.received ++ [v] }

/-- Modelled from the spec: the fields of the driver object.  The class declaration (the
header) is not among the sources; these are the members the functions of the `.cpp` file use.
`address_` is the bus address of the framework's device base class, `deviceAddr_` the
driver's own address field, `button_color_` the `uint8_t[3]` colour cache, `button_sensor_`
the optional sink (`none` for `nullptr`) and `failed` the flag `mark_failed()` raises. -/
structure Driver where
  address_ : Byte
  deviceAddr_ : Byte
  default_color_ : Nat
  button_color_ : Byte × Byte × Byte
  button_state_ : Bool
  button_sensor_ : Option BinarySensor
  failed : Bool
  deriving DecidableEq, Repr

/-- One register operation on the bus, with the two address fields of the driver at the
moment it was issued. -/
inductive BusOp where
  | read (address deviceAddr : Byte) (reg : Byte) (len : Nat)
  | write (address deviceAddr : Byte) (reg : Byte) (data : List Byte)
  deriving DecidableEq, Repr

/-- The bus and the device behind it: `regs` are the register values the device has
committed, `log` the operations issued so far, oldest first. -/
structure I2CBus where
  regs : Nat → Byte
  log : List BusOp

/-- What the transport answers to a read: the status code and the content of the caller's
buffer when the call returns (by index; arbitrary when the read failed). -/
structure ReadReply where
  status : ErrorCode
  buf : Nat → Byte

/-- Modelled from the spec: the transport's `write_register(reg, data, len)`.  The operation
is logged; when the transport reports success the device commits the `len` bytes to the
registers `reg`, `reg + 1`, ...; when it reports a failure nothing is committed. -/
def write_register (s : Driver) (bus : I2CBus) (reg : Byte) (data : List Byte) (len : Nat)
    (status : ErrorCode) : ErrorCode × I2CBus :=
  let sent := data.take len
  let regs1 : Nat → Byte := fun i =>
    if status = ErrorCode.ERROR_OK ∧ reg.val ≤ i ∧ i < reg.val + sent.length then
      sent.getD (i - reg.val) (bus.regs i)
    else bus.regs i
  (status, { regs := regs1, log := bus.log ++ [BusOp.write s.address_ s.deviceAddr_ reg sent] })

/-- Modelled from the spec: the transport's `read_register(reg, buf, len)`.  The operation is
logged; status and buffer content are the transport's answer. -/
def read_register (s : Driver) (bus : I2CBus) (reg : Byte) (len : Nat) (reply : ReadReply) :
    ErrorCode × (Nat → Byte) × I2CBus :=
  (reply.status, reply.buf,
    { bus with log := bus.log ++ [BusOp.read s.address_ s.deviceAddr_ reg len] })

/-- `set_button_color(uint8_t r, uint8_t g, uint8_t b, bool force)`. -/
def set_button_color (s : Driver) (bus : I2CBus) (r g b : Byte) (force : Bool)
    (wr : ErrorCode) : Driver × I2CBus :=
  let rgbBuf : Byte × Byte × Byte := (r, g, b)
  if !force && decide (rgbBuf = s.button_color_) then
    (s, bus)
  else
    let (_, bus1) := write_register s bus RGBBUTTON_RED_REG [rgbBuf.1, rgbBuf.2.1, rgbBuf.2.2] 3 wr
    ({ s with button_color_ := rgbBuf }, bus1)

/-- `set_button_color(unsigned long color, bool force)`. -/
def set_button_color_ulong (s : Driver) (bus : I2CBus) (color : Nat) (force : Bool)
    (wr : ErrorCode) : Driver × I2CBus :=
  let rgbBuf : Byte × Byte × Byte :=
    (toUInt8 ((color >>> 16) &&& 0xFF), toUInt8 ((color >>> 8) &&& 0xFF), toUInt8 (color &&& 0xFF))
  set_button_color s bus rgbBuf.1 rgbBuf.2.1 rgbBuf.2.2 force wr

/-- `set_button_color(eGeneralRGBValue_t color, bool force)`.  The enumeration is declared in
the header, which is not among the sources: `color` is the integer value of the enumerator. -/
def set_button_color_enum (s : Driver) (bus : I2CBus) (color : Nat) (force : Bool)
    (wr : ErrorCode) : Driver × I2CBus :=
  let rgbBuf : Byte × Byte × Byte :=
    (toUInt8 ((color >>> 16) &&& 0xFF), toUInt8 ((color >>> 8) &&& 0xFF), toUInt8 (color &&& 0xFF))
  set_button_color s bus rgbBuf.1 rgbBuf.2.1 rgbBuf.2.2 force wr

/-- `get_button_color_rgb()`: the colour cache. -/
def get_button_color_rgb (s : Driver) : Byte × Byte × Byte :=
  s.button_color_

/-- `get_button_color_hex()`.  The channels are promoted to `int` before shifting; the sum is
below `2 ^ 24`, so no width is exceeded. -/
def get_button_color_hex (s : Driver) : Nat :=
  ((s.button_color_.1.val &&& 0xff) <<< 16) + ((s.button_color_.2.1.val &&& 0xff) <<< 8)
    + (s.button_color_.2.2.val &&& 0xff)

/-- `get_button_state()`. -/
def get_button_state (s : Driver) (bus : I2CBus) (reply : ReadReply) : Bool × Driver × I2CBus :=
  let (_, buf, bus1) := read_register s bus RGBBUTTON_BUTTON_SIGNAL_REG 1 reply
  let buttonStatus : Byte := buf 0
  let s1 : Driver := { s with button_state_ := if buttonStatus ≠ 0 then true else false }
  let s2 : Driver :=
    match s1.button_sensor_ with
    | some sensor =>
      if !sensor.has_state || (sensor.state != s1.button_state_) then
        if s1.button_state_ then
          { s1 with button_sensor_ := some (sensor.publish_state s1.button_state_) }
        else
          { s1 with button_sensor_ := some (sensor.publish_state s1.button_state_) }
      else s1
    | none => s1
  (s2.button_state_, s2, bus1)

/-- `concat_bytes(uint8_t msb, uint8_t lsb)`, a `uint16_t`. -/
def concat_bytes (msb lsb : Byte) : Nat :=
  (((msb.val % 65536) <<< 8) ||| (lsb.val % 65536)) % 65536

/-- `begin()`. -/
def begin (s : Driver) (bus : I2CBus) (reply : ReadReply) : Bool × Driver × I2CBus :=
  let (status, idBuf, bus1) := read_register s bus RGBBUTTON_PID_MSB_REG 2 reply
  if ErrorCode.ERROR_OK ≠ status then
    (false, s, bus1)
  else if RGBBUTTON_PART_ID ≠ concat_bytes (idBuf 0) (idBuf 1) then
    (false, s, bus1)
  else
    (true, s, bus1)

/-- `get_i2c_address()`. -/
def get_i2c_address (s : Driver) (bus : I2CBus) (reply : ReadReply) : Byte × Driver × I2CBus :=
  let temp : Byte := s.deviceAddr_
  let s1 : Driver := { s with deviceAddr_ := 0 }
  let (_, buf, bus1) := read_register s1 bus RGBBUTTON_I2C_ADDR_REG 1 reply
  let i2cAddr : Byte := buf 0
  let s2 : Driver := { s1 with deviceAddr_ := temp }
  (i2cAddr, s2, bus1)

/-- `get_pid()`. -/
def get_pid (s : Driver) (bus : I2CBus) (reply : ReadReply) : Nat × Driver × I2CBus :=
  let (_, pidBuf, bus1) := read_register s bus RGBBUTTON_PID_MSB_REG 2 reply
  (concat_bytes (pidBuf 0) (pidBuf 1), s, bus1)

/-- `setup()`.  `idReply` answers the read of `begin()`, `pidReply` the read of `get_pid()`
and `wr` the write of the default colour.  `mark_failed()` raises `failed`; the call
`set_button_color(this->default_color_, true)` goes to a packed overload (the two have the
same body). -/
def setup (s : Driver) (bus : I2CBus) (idReply pidReply : ReadReply) (wr : ErrorCode) :
    Driver × I2CBus :=
  let (ok, s1, bus1) := begin s bus idReply
  if !ok then
    ({ s1 with failed := true }, bus1)
  else
    let (_, s2, bus2) := get_pid s1 bus1 pidReply
    set_button_color_ulong s2 bus2 s2.default_color_ true wr

/-- `loop()`. -/
def loop (s : Driver) (bus : I2CBus) : Driver × I2CBus :=
  (s, bus)

/-- `update()`. -/
def update (s : Driver) (bus : I2CBus) (reply : ReadReply) : Driver × I2CBus :=
  let (_, s1, bus1) := get_button_state s bus reply
  (s1, bus1)

/-- The values the sink has been notified of so far (none when there is no sink). -/
def notifications (s : Driver) : List Bool :=
  match s.button_sensor_ with
  | some sensor => sensor.received
  | none => []

/-- Successive `update()` calls, one for each answer of the transport, oldest first. -/
def run_updates (s : Driver) (bus : I2CBus) : List ReadReply → Driver × I2CBus
  | [] => (s, bus)
  | reply :: rest => run_updates (update s bus reply).1 (update s bus reply).2 rest

/-- The colour the device has committed: its registers `0x01`, `0x02`, `0x03`. -/
def committed_color (bus : I2CBus) : Byte × Byte × Byte :=
  (bus.regs RGBBUTTON_RED_REG.val, bus.regs RGBBUTTON_GREEN_REG.val,
    bus.regs RGBBUTTON_BLUE_REG.val)

/-- A driver without a sink, its cache dark, for evaluating the functions. -/
def sample_driver : Driver :=
  { address_ := 0x2A, deviceAddr_ := 0x2A, default_color_ := 0x00FF00,
    button_color_ := (0, 0, 0), button_state_ := false, button_sensor_ := none,
    failed := false }

/-- The same driver with a sink attached that holds the given recorded state. -/
def sample_driver_sink (has_state state : Bool) : Driver :=
  { sample_driver with
    button_sensor_ := some { has_state := has_state, state := state, received := [] } }

/-- A bus with nothing logged, behind it a device whose registers are all zero. -/
def sample_bus : I2CBus :=
  { regs := fun _ => 0, log := [] }

/-- A transport answer that leaves the byte `v` in every position of the buffer. -/
def sample_reply (status : ErrorCode) (v : Byte) : ReadReply :=
  { status := status, buf := fun _ => v }

/-- A transport answer to a 2-byte read: `msb` in position 0 of the buffer, `lsb` after it. -/
def sample_id_reply (status : ErrorCode) (msb lsb : Byte) : ReadReply :=
  { status := status, buf := fun i => if i = 0 then msb else lsb }

/-- The values of a sequence of polled booleans that differ from the value before them,
`prev` standing before the first: one entry for each position where the value changes. -/
def changes (prev : Bool) : List Bool → List Bool
  | [] => []
  | v :: vs => if v != prev then v :: changes v vs else changes v vs

/-- One call of a member function of the driver, with its arguments and the answers the
transport gives during the call. -/
inductive Call where
  | setup (idReply pidReply : ReadReply) (wr : ErrorCode)
  | loop
  | update (reply : ReadReply)
  | set_button_color (r g b : Byte) (force : Bool) (wr : ErrorCode)
  | set_button_color_ulong (color : Nat) (force : Bool) (wr : ErrorCode)
  | set_button_color_enum (color : Nat) (force : Bool) (wr : ErrorCode)
  | get_button_color_rgb
  | get_button_color_hex
  | get_button_state (reply : ReadReply)
  | begin (reply : ReadReply)
  | get_i2c_address (reply : ReadReply)
  | get_pid (reply : ReadReply)

/-- The driver and the bus after one call; the value the call returns is dropped.  The two
colour getters only read the cache. -/
def run_call (s : Driver) (bus : I2CBus) : Call → Driver × I2CBus
  | Call.setup idReply pidReply wr => setup s bus idReply pidReply wr
  | Call.loop => loop s bus
  | Call.update reply => update s bus reply
  | Call.set_button_color r g b force wr => set_button_color s bus r g b force wr
  | Call.set_button_color_ulong color force wr => set_button_color_ulong s bus color force wr
  | Call.set_button_color_enum color force wr => set_button_color_enum s bus color force wr
  | Call.get_button_color_rgb => (s, bus)
  | Call.get_button_color_hex => (s, bus)
  | Call.get_button_state reply => (get_button_state s bus reply).2
  | Call.begin reply => (begin s bus reply).2
  | Call.get_i2c_address reply => (get_i2c_address s bus reply).2
  | Call.get_pid reply => (get_pid s bus reply).2

/-- The driver and the bus after a sequence of calls, oldest first. -/
def run_calls (s : Driver) (bus : I2CBus) : List Call → Driver × I2CBus
  | [] => (s, bus)
  | call :: rest => run_calls (run_call s bus call).1 (run_call s bus call).2 rest

/-! ## Colour controller -/

/-- Whether it writes or not, `set_button_color` ends with the requested triple cached. -/
theorem cache_after_set_button_color (s : Driver) (bus : I2CBus) (r g b : Byte) (force : Bool)
    (wr : ErrorCode) : (set_button_color s bus r g b force wr).1.button_color_ = (r, g, b) := by
  by_cases he : (r, g, b) = s.button_color_
  · cases force <;> simp [set_button_color, he.symm]
  · simp [set_button_color, he]

/-- Masking with `0xFF` keeps the low eight bits. -/
theorem and_0xFF (x : Nat) : x &&& 0xFF = x % 256 :=
  Nat.and_pow_two_sub_one_eq_mod x 8

/-- Masking with `0xFFFFFF` keeps the low twenty-four bits. -/
theorem and_0xFFFFFF (x : Nat) : x &&& 0xFFFFFF = x % 16777216 :=
  Nat.and_pow_two_sub_one_eq_mod x 24

/-- Packing the three unpacked channels of `V` gives the low twenty-four bits of `V`. -/
theorem pack_unpack (V : Nat) :
    (((toUInt8 ((V >>> 16) &&& 0xFF)).val &&& 0xff) <<< 16)
        + (((toUInt8 ((V >>> 8) &&& 0xFF)).val &&& 0xff) <<< 8)
        + ((toUInt8 (V &&& 0xFF)).val &&& 0xff)
      = V &&& 0xFFFFFF := by
  simp only [toUInt8, and_0xFF, and_0xFFFFFF, Nat.shiftLeft_eq, Nat.shiftRight_eq_div_pow]
  omega

/-- The sum `get_button_color_hex` computes is the base-256 number with digits `r, g, b`. -/
theorem get_button_color_hex_eq (s : Driver) :
    get_button_color_hex s
      = s.button_color_.1.val * 65536 + s.button_color_.2.1.val * 256
        + s.button_color_.2.2.val := by
  have hr : s.button_color_.1.val < 256 := s.button_color_.1.isLt
  have hg : s.button_color_.2.1.val < 256 := s.button_color_.2.1.isLt
  have hb : s.button_color_.2.2.val < 256 := s.button_color_.2.2.isLt
  have e : ∀ x : Nat, x &&& 0xff = x % 256 := fun x => Nat.and_pow_two_sub_one_eq_mod x 8
  simp only [get_button_color_hex, e, Nat.shiftLeft_eq]
  omega

/-- Three bytes shifted into place and joined with bitwise OR are the base-256 number with
those digits. -/
theorem shift_or_three (r g b : Byte) :
    (r.val <<< 16) ||| (g.val <<< 8) ||| b.val = r.val * 65536 + g.val * 256 + b.val := by
  have hg : g.val < 256 := g.isLt
  have hb : b.val < 2 ^ 8 := b.isLt
  have hlow : 2 ^ 8 * g.val + b.val < 2 ^ 16 := by omega
  have h1 := @Nat.mul_add_lt_is_or 8 b.val hb g.val
  have h2 := @Nat.mul_add_lt_is_or 16 (2 ^ 8 * g.val + b.val) hlow r.val
  have e16 : r.val <<< 16 = 2 ^ 16 * r.val := by rw [Nat.shiftLeft_eq, Nat.mul_comm]
  have e8 : g.val <<< 8 = 2 ^ 8 * g.val := by rw [Nat.shiftLeft_eq, Nat.mul_comm]
  rw [e16, e8, Nat.lor_assoc, ← h1, ← h2]
  omega

/-- Unpacking what `get_button_color_hex` returns gives the cached channels back. -/
theorem unpack_hex (s : Driver) :
    toUInt8 ((get_button_color_hex s >>> 16) &&& 0xFF) = s.button_color_.1
      ∧ toUInt8 ((get_button_color_hex s >>> 8) &&& 0xFF) = s.button_color_.2.1
      ∧ toUInt8 (get_button_color_hex s &&& 0xFF) = s.button_color_.2.2 := by
  have hr : s.button_color_.1.val < 256 := s.button_color_.1.isLt
  have hg : s.button_color_.2.1.val < 256 := s.button_color_.2.1.isLt
  have hb : s.button_color_.2.2.val < 256 := s.button_color_.2.2.isLt
  have hx := get_button_color_hex_eq s
  refine ⟨Fin.ext ?_, Fin.ext ?_, Fin.ext ?_⟩
  · show ((get_button_color_hex s >>> 16) &&& 0xFF) % 256 = s.button_color_.1.val
    rw [and_0xFF, Nat.shiftRight_eq_div_pow]
    omega
  · show ((get_button_color_hex s >>> 8) &&& 0xFF) % 256 = s.button_color_.2.1.val
    rw [and_0xFF, Nat.shiftRight_eq_div_pow]
    omega
  · show (get_button_color_hex s &&& 0xFF) % 256 = s.button_color_.2.2.val
    rw [and_0xFF]
    omega

/-- The two bytes of `concat_bytes` are the base-256 digits of its result. -/
theorem concat_bytes_eq (msb lsb : Byte) : concat_bytes msb lsb = msb.val * 256 + lsb.val := by
  have hm : msb.val < 256 := msb.isLt
  have hl : lsb.val < 2 ^ 8 := lsb.isLt
  have hor := @Nat.mul_add_lt_is_or 8 lsb.val hl msb.val
  have h1 : msb.val % 65536 = msb.val := by omega
  have h2 : lsb.val % 65536 = lsb.val := by omega
  have h3 : msb.val <<< 8 = 2 ^ 8 * msb.val := by rw [Nat.shiftLeft_eq, Nat.mul_comm]
  unfold concat_bytes
  rw [h1, h2, h3, ← hor]
  omega

/-- The shift-and-or of two bytes, without the casts, is the same number. -/
theorem shift_or_bytes (msb lsb : Byte) :
    (msb.val <<< 8) ||| lsb.val = msb.val * 256 + lsb.val := by
  have hl : lsb.val < 2 ^ 8 := lsb.isLt
  have hor := @Nat.mul_add_lt_is_or 8 lsb.val hl msb.val
  have h3 : msb.val <<< 8 = 2 ^ 8 * msb.val := by rw [Nat.shiftLeft_eq, Nat.mul_comm]
  rw [h3, ← hor]
  omega

/-- The driver and the bus `begin` gives back: the driver as it was, one read logged. -/
theorem begin_snd (s : Driver) (bus : I2CBus) (reply : ReadReply) :
    (begin s bus reply).2
      = (s, { bus with log := bus.log ++ [BusOp.read s.address_ s.deviceAddr_ 0x09 2] }) := by
  unfold begin read_register
  simp only [RGBBUTTON_PID_MSB_REG]
  split <;> [rfl; (split <;> rfl)]

/-- The value `begin` returns, in terms of the status and the two bytes read. -/
theorem begin_fst (s : Driver) (bus : I2CBus) (reply : ReadReply) :
    (begin s bus reply).1 = true ↔
      reply.status = ErrorCode.ERROR_OK
        ∧ (reply.buf 0).val * 256 + (reply.buf 1).val = 0x43DF := by
  unfold begin read_register
  simp only [concat_bytes_eq, RGBBUTTON_PART_ID]
  by_cases hst : ErrorCode.ERROR_OK = reply.status
  · by_cases hid : 0x43DF = (reply.buf 0).val * 256 + (reply.buf 1).val
    · simp [hst.symm, hid.symm]
    · have hid2 : ¬ ((reply.buf 0).val * 256 + (reply.buf 1).val = 0x43DF) :=
        fun h => hid h.symm
      simp [hst.symm, hid, hid2]
  · have hst2 : ¬ (reply.status = ErrorCode.ERROR_OK) := fun h => hst h.symm
    simp [hst, hst2]

/-- The value `get_button_state` derives from the status byte. -/
theorem get_button_state_fst (s : Driver) (bus : I2CBus) (reply : ReadReply) :
    (get_button_state s bus reply).1 = decide (reply.buf 0 ≠ 0) := by
  cases hs : s.button_sensor_ with
  | none => by_cases h0 : reply.buf 0 = 0 <;> simp [get_button_state, read_register, hs, h0]
  | some sensor =>
    by_cases h0 : reply.buf 0 = 0 <;>
      simp [get_button_state, read_register, hs, h0] <;> split <;> rfl

/-- C1: when `force` is set or the requested triple differs from the cached colour,
`set_button_color` issues exactly one register write, of the three bytes `[r, g, b]` starting
at register `0x01`, and the cached colour is `(r, g, b)` afterwards. -/
theorem set_button_color_writes (s : Driver) (bus : I2CBus) (r g b : Byte) (force : Bool)
    (wr : ErrorCode) (h : force = true ∨ (r, g, b) ≠ s.button_color_) :
    (set_button_color s bus r g b force wr).2.log
        = bus.log ++ [BusOp.write s.address_ s.deviceAddr_ 0x01 [r, g, b]]
      ∧ (set_button_color s bus r g b force wr).1.button_color_ = (r, g, b) := by
  have hc : (!force && decide ((r, g, b) = s.button_color_)) = false := by
    rcases h with h | h
    · simp [h]
    · simp [h]
  simp only [set_button_color, hc]
  simp [write_register, RGBBUTTON_RED_REG]

/-- C1 at a concrete call: an unforced change from `(0, 0, 0)` to `(1, 2, 3)`. -/
theorem set_button_color_writes_witness :
    ((false = true ∨ ((1 : Byte), (2 : Byte), (3 : Byte)) ≠ sample_driver.button_color_))
      ∧ ((set_button_color sample_driver sample_bus 1 2 3 false ErrorCode.ERROR_OK).2.log
            = sample_bus.log
              ++ [BusOp.write sample_driver.address_ sample_driver.deviceAddr_ 0x01 [1, 2, 3]]
          ∧ (set_button_color sample_driver sample_bus 1 2 3 false
              ErrorCode.ERROR_OK).1.button_color_ = (1, 2, 3)) :=
  ⟨by decide,
    set_button_color_writes sample_driver sample_bus 1 2 3 false ErrorCode.ERROR_OK
      (by decide)⟩

/-- C2: when the requested triple equals the cached colour channel for channel and `force`
is not set, `set_button_color` issues no register operation and changes nothing: the driver
(all its fields) and the bus are returned as they were. -/
theorem set_button_color_cached_noop (s : Driver) (bus : I2CBus) (r g b : Byte)
    (wr : ErrorCode)
    (h : r = s.button_color_.1 ∧ g = s.button_color_.2.1 ∧ b = s.button_color_.2.2) :
    set_button_color s bus r g b false wr = (s, bus) := by
  obtain ⟨hr, hg, hb⟩ := h
  subst hr hg hb
  simp [set_button_color]

/-- C2 at a concrete call: `(0, 0, 0)` requested while `(0, 0, 0)` is cached. -/
theorem set_button_color_cached_noop_witness :
    ((0 : Byte) = sample_driver.button_color_.1 ∧ (0 : Byte) = sample_driver.button_color_.2.1
        ∧ (0 : Byte) = sample_driver.button_color_.2.2)
      ∧ set_button_color sample_driver sample_bus 0 0 0 false ErrorCode.ERROR_OK
          = (sample_driver, sample_bus) :=
  ⟨by decide,
    set_button_color_cached_noop sample_driver sample_bus 0 0 0 ErrorCode.ERROR_OK
      (by decide)⟩

/-- C3: after the packed `set_button_color(V, force)`, `get_button_color_hex()` returns
`V & 0xFFFFFF`, for every driver, every `V`, every `force` and every outcome of the write. -/
theorem packed_round_trip (s : Driver) (bus : I2CBus) (V : Nat) (force : Bool)
    (wr : ErrorCode) :
    get_button_color_hex (set_button_color_ulong s bus V force wr).1 = V &&& 0xFFFFFF := by
  unfold get_button_color_hex set_button_color_ulong
  simp only [cache_after_set_button_color]
  exact pack_unpack V

/-- C4: both packed entry points (the `unsigned long` one and the enumeration one) give the
same driver and the same bus, hence the same register writes and the same cached colour, as
the byte-triple form called with `(V >> 16) & 0xFF`, `(V >> 8) & 0xFF`, `V & 0xFF`; for
`V = 0x112233` that is the triple `(0x11, 0x22, 0x33)`. -/
theorem packed_equivalence (s : Driver) (bus : I2CBus) (V : Nat) (force : Bool)
    (wr : ErrorCode) :
    set_button_color_ulong s bus V force wr
        = set_button_color s bus (toUInt8 ((V >>> 16) &&& 0xFF)) (toUInt8 ((V >>> 8) &&& 0xFF))
            (toUInt8 (V &&& 0xFF)) force wr
      ∧ set_button_color_enum s bus V force wr
        = set_button_color s bus (toUInt8 ((V >>> 16) &&& 0xFF)) (toUInt8 ((V >>> 8) &&& 0xFF))
            (toUInt8 (V &&& 0xFF)) force wr
      ∧ set_button_color_ulong s bus 0x112233 force wr
        = set_button_color s bus 0x11 0x22 0x33 force wr
      ∧ set_button_color_enum s bus 0x112233 force wr
        = set_button_color s bus 0x11 0x22 0x33 force wr := by
  refine ⟨rfl, rfl, ?_, ?_⟩
  · have h1 : toUInt8 ((0x112233 >>> 16) &&& 0xFF) = 0x11 := by decide
    have h2 : toUInt8 ((0x112233 >>> 8) &&& 0xFF) = 0x22 := by decide
    have h3 : toUInt8 (0x112233 &&& 0xFF) = 0x33 := by decide
    simp only [set_button_color_ulong, h1, h2, h3]
  · have h1 : toUInt8 ((0x112233 >>> 16) &&& 0xFF) = 0x11 := by decide
    have h2 : toUInt8 ((0x112233 >>> 8) &&& 0xFF) = 0x22 := by decide
    have h3 : toUInt8 (0x112233 &&& 0xFF) = 0x33 := by decide
    simp only [set_button_color_enum, h1, h2, h3]

/-! ## Identification -/

/-- C5: `begin()` issues the 2-byte read at register `0x09` and returns true exactly when
that read reports `ERROR_OK` and the bytes read satisfy `(msb << 8) | lsb == 0x43DF`, that
is `msb = 0x43` and `lsb = 0xDF`.  So `{0x43, 0xDF}` read successfully gives true,
`{0x00, 0x00}` gives false and every transport error gives false whatever the bytes. -/
theorem begin_identification_gate (s : Driver) (bus : I2CBus) (reply : ReadReply) :
    (begin s bus reply).2.2.log = bus.log ++ [BusOp.read s.address_ s.deviceAddr_ 0x09 2]
      ∧ ((begin s bus reply).1 = true ↔
          reply.status = ErrorCode.ERROR_OK
            ∧ ((reply.buf 0).val <<< 8) ||| (reply.buf 1).val = 0x43DF)
      ∧ ((begin s bus reply).1 = true ↔
          reply.status = ErrorCode.ERROR_OK ∧ reply.buf 0 = 0x43 ∧ reply.buf 1 = 0xDF) := by
  have hlog : (begin s bus reply).2.2.log
      = bus.log ++ [BusOp.read s.address_ s.deviceAddr_ 0x09 2] := by
    unfold begin read_register
    simp only [RGBBUTTON_PID_MSB_REG]
    split <;> [rfl; (split <;> rfl)]
  have hret : (begin s bus reply).1 = true ↔
      reply.status = ErrorCode.ERROR_OK
        ∧ (reply.buf 0).val * 256 + (reply.buf 1).val = 0x43DF := by
    unfold begin read_register
    simp only [concat_bytes_eq, RGBBUTTON_PART_ID]
    by_cases hst : ErrorCode.ERROR_OK = reply.status
    · by_cases hid : 0x43DF = (reply.buf 0).val * 256 + (reply.buf 1).val
      · simp [hst.symm, hid.symm]
      · have hid2 : ¬ ((reply.buf 0).val * 256 + (reply.buf 1).val = 0x43DF) :=
          fun h => hid h.symm
        simp [hst.symm, hid, hid2]
    · have hst2 : ¬ (reply.status = ErrorCode.ERROR_OK) := fun h => hst h.symm
      simp [hst, hst2]
  refine ⟨hlog, ?_, ?_⟩
  · rw [shift_or_bytes]
    exact hret
  · rw [hret]
    have h0 : (reply.buf 0).val < 256 := (reply.buf 0).isLt
    have h1 : (reply.buf 1).val < 256 := (reply.buf 1).isLt
    constructor
    · rintro ⟨hst, hv⟩
      refine ⟨hst, Fin.ext ?_, Fin.ext ?_⟩
      · show (reply.buf 0).val = 0x43
        omega
      · show (reply.buf 1).val = 0xDF
        omega
    · rintro ⟨hst, hm, hl⟩
      refine ⟨hst, ?_⟩
      rw [hm, hl]
      rfl

/-! ## Button state monitor -/

/-- C6: one poll publishes to the sink if and only if the sink is present and either has no
recorded state or holds a state different from `raw != 0`; the history of the sink then grows
by exactly one value, `raw != 0`, and is unchanged otherwise (no sink: no history at all). -/
theorem get_button_state_edge_rule (s : Driver) (bus : I2CBus) (reply : ReadReply) :
    (notifications (get_button_state s bus reply).2.1 ≠ notifications s ↔
        ∃ sensor, s.button_sensor_ = some sensor
          ∧ (sensor.has_state = false ∨ sensor.state ≠ decide (reply.buf 0 ≠ 0)))
      ∧ (notifications (get_button_state s bus reply).2.1 = notifications s
          ∨ notifications (get_button_state s bus reply).2.1
              = notifications s ++ [decide (reply.buf 0 ≠ 0)])
      ∧ (s.button_sensor_ = none → (get_button_state s bus reply).2.1.button_sensor_ = none) := by
  cases hs : s.button_sensor_ with
  | none =>
    by_cases h0 : reply.buf 0 = 0 <;>
      simp [get_button_state, read_register, notifications, hs, h0]
  | some sensor =>
    obtain ⟨hst, st, rc⟩ := sensor
    by_cases h0 : reply.buf 0 = 0 <;> cases hst <;> cases st <;>
      simp [get_button_state, read_register, notifications, hs, h0,
        BinarySensor.publish_state]

/-- C8: when the sink is present and has never recorded a state, one poll publishes exactly
one notification, carrying `raw != 0`, whatever the status byte is. -/
theorem get_button_state_first_poll (s : Driver) (bus : I2CBus) (reply : ReadReply)
    (sensor : BinarySensor) (hs : s.button_sensor_ = some sensor)
    (hn : sensor.has_state = false) :
    notifications (get_button_state s bus reply).2.1
      = notifications s ++ [decide (reply.buf 0 ≠ 0)] := by
  obtain ⟨hst, st, rc⟩ := sensor
  simp only at hn
  subst hn
  by_cases h0 : reply.buf 0 = 0 <;>
    simp [get_button_state, read_register, notifications, hs, h0, BinarySensor.publish_state]

/-- C8 at a concrete poll: a sink without state, status byte zero. -/
theorem get_button_state_first_poll_witness :
    ((sample_driver_sink false false).button_sensor_
          = some { has_state := false, state := false, received := [] }
        ∧ ({ has_state := false, state := false, received := [] } : BinarySensor).has_state
          = false)
      ∧ notifications (get_button_state (sample_driver_sink false false) sample_bus
            (sample_reply ErrorCode.ERROR_OK 0)).2.1
          = notifications (sample_driver_sink false false)
            ++ [decide ((sample_reply ErrorCode.ERROR_OK 0).buf 0 ≠ 0)] :=
  ⟨⟨rfl, rfl⟩,
    get_button_state_first_poll (sample_driver_sink false false) sample_bus
      (sample_reply ErrorCode.ERROR_OK 0)
      { has_state := false, state := false, received := [] } rfl rfl⟩

/-- C7, as stated, fails when the sink's recorded state is "pressed": with the sink present
and holding a state, the polls `0, 0, 1, 1, 0` publish three notifications, the first one at
the first poll. -/
theorem edge_sequence_pressed_sink_counterexample :
    (∃ sensor, (sample_driver_sink true true).button_sensor_ = some sensor
        ∧ sensor.has_state = true)
      ∧ notifications (sample_driver_sink true true) = []
      ∧ notifications (run_updates (sample_driver_sink true true) sample_bus
            [sample_reply ErrorCode.ERROR_OK 0]).1 = [false]
      ∧ notifications (run_updates (sample_driver_sink true true) sample_bus
            [sample_reply ErrorCode.ERROR_OK 0, sample_reply ErrorCode.ERROR_OK 0,
              sample_reply ErrorCode.ERROR_OK 1, sample_reply ErrorCode.ERROR_OK 1,
              sample_reply ErrorCode.ERROR_OK 0]).1 = [false, true, false] := by
  refine ⟨⟨_, rfl, rfl⟩, ?_, ?_, ?_⟩ <;> decide

/-- C7, amended: when the sink is present and its recorded state is "released", five
successive polls reading `0, 0, 1, 1, 0` publish exactly two notifications: nothing after the
first two polls, "pressed" at the third (the 0 -> 1 transition), nothing at the fourth and
"released" at the fifth (the 1 -> 0 transition). -/
theorem edge_sequence_released_sink (s : Driver) (bus : I2CBus) (sensor : BinarySensor)
    (r1 r2 r3 r4 r5 : ReadReply)
    (hs : s.button_sensor_ = some sensor) (hh : sensor.has_state = true)
    (hst : sensor.state = false)
    (h1 : r1.buf 0 = 0) (h2 : r2.buf 0 = 0) (h3 : r3.buf 0 = 1) (h4 : r4.buf 0 = 1)
    (h5 : r5.buf 0 = 0) :
    notifications (run_updates s bus [r1]).1 = notifications s
      ∧ notifications (run_updates s bus [r1, r2]).1 = notifications s
      ∧ notifications (run_updates s bus [r1, r2, r3]).1 = notifications s ++ [true]
      ∧ notifications (run_updates s bus [r1, r2, r3, r4]).1 = notifications s ++ [true]
      ∧ notifications (run_updates s bus [r1, r2, r3, r4, r5]).1
          = notifications s ++ [true, false] := by
  obtain ⟨hst0, st0, rc⟩ := sensor
  simp only at hh hst
  subst hh hst
  refine ⟨?_, ?_, ?_, ?_, ?_⟩ <;>
    simp [run_updates, update, get_button_state, read_register, notifications, hs, h1, h2, h3,
      h4, h5, BinarySensor.publish_state]

/-- C7, amended, at a concrete run: a sink holding "released" and five successful reads. -/
theorem edge_sequence_released_sink_witness :
    ((sample_driver_sink true false).button_sensor_
          = some { has_state := true, state := false, received := [] }
        ∧ ({ has_state := true, state := false, received := [] } : BinarySensor).has_state
          = true
        ∧ ({ has_state := true, state := false, received := [] } : BinarySensor).state = false
        ∧ (sample_reply ErrorCode.ERROR_OK 0).buf 0 = 0
        ∧ (sample_reply ErrorCode.ERROR_OK 1).buf 0 = 1)
      ∧ notifications (run_updates (sample_driver_sink true false) sample_bus
            [sample_reply ErrorCode.ERROR_OK 0, sample_reply ErrorCode.ERROR_OK 0,
              sample_reply ErrorCode.ERROR_OK 1, sample_reply ErrorCode.ERROR_OK 1,
              sample_reply ErrorCode.ERROR_OK 0]).1
          = notifications (sample_driver_sink true false) ++ [true, false] :=
  ⟨⟨rfl, rfl, rfl, rfl, rfl⟩,
    (edge_sequence_released_sink (sample_driver_sink true false) sample_bus
      { has_state := true, state := false, received := [] }
      (sample_reply ErrorCode.ERROR_OK 0) (sample_reply ErrorCode.ERROR_OK 0)
      (sample_reply ErrorCode.ERROR_OK 1) (sample_reply ErrorCode.ERROR_OK 1)
      (sample_reply ErrorCode.ERROR_OK 0) rfl rfl rfl rfl rfl rfl rfl rfl).2.2.2.2⟩

/-- C9: `get_button_state()` issues one 1-byte read of register `0x04`, returns `raw != 0`
and leaves `button_state_` equal to `raw != 0`, in every driver state (sink absent, without
state, with an equal or a different state) and for every status byte. -/
theorem get_button_state_result (s : Driver) (bus : I2CBus) (reply : ReadReply) :
    (get_button_state s bus reply).1 = decide (reply.buf 0 ≠ 0)
      ∧ (get_button_state s bus reply).2.1.button_state_ = decide (reply.buf 0 ≠ 0)
      ∧ (get_button_state s bus reply).2.2.log
          = bus.log ++ [BusOp.read s.address_ s.deviceAddr_ 0x04 1] := by
  refine ⟨get_button_state_fst s bus reply, ?_, ?_⟩
  · rw [← get_button_state_fst s bus reply]
    rfl
  · rfl

/-! ## Colour cache and committed colour -/

/-- C10, as stated, fails when the transport reports a failure: the cache agrees with the
device before the call, the write of `(1, 2, 3)` is not acknowledged, the device keeps
`(0, 0, 0)` and the cache holds `(1, 2, 3)`. -/
theorem color_cache_failed_write_counterexample :
    sample_driver.button_color_ = committed_color sample_bus
      ∧ (set_button_color sample_driver sample_bus 1 2 3 false
          ErrorCode.ERROR_NOT_ACKNOWLEDGED).1.button_color_ = (1, 2, 3)
      ∧ committed_color (set_button_color sample_driver sample_bus 1 2 3 false
          ErrorCode.ERROR_NOT_ACKNOWLEDGED).2 = (0, 0, 0)
      ∧ (set_button_color sample_driver sample_bus 1 2 3 false
          ErrorCode.ERROR_NOT_ACKNOWLEDGED).1.button_color_
        ≠ committed_color (set_button_color sample_driver sample_bus 1 2 3 false
            ErrorCode.ERROR_NOT_ACKNOWLEDGED).2 := by
  refine ⟨?_, ?_, ?_, ?_⟩ <;> decide

/-- C10, amended: after every `set_button_color(r, g, b, force)` the cache holds
`(r, g, b)`, whatever status the register write reports.  When the write reports success,
the cache equals the colour committed to the registers `0x01..0x03`, provided the call
writes or the cache already agreed with the device.  When the write reports a failure, or
the call is suppressed as a no-op, the registers of the device stay as they were; the cache
then agrees with the committed colour only if the requested triple was committed already. -/
theorem color_cache_after_set (s : Driver) (bus : I2CBus) (r g b : Byte) (force : Bool) :
    (∀ wr, (set_button_color s bus r g b force wr).1.button_color_ = (r, g, b))
      ∧ ((s.button_color_ = committed_color bus ∨ force = true
            ∨ (r, g, b) ≠ s.button_color_) →
          (set_button_color s bus r g b force ErrorCode.ERROR_OK).1.button_color_
            = committed_color (set_button_color s bus r g b force ErrorCode.ERROR_OK).2)
      ∧ (∀ wr, (wr ≠ ErrorCode.ERROR_OK ∨ (force = false ∧ (r, g, b) = s.button_color_)) →
          (set_button_color s bus r g b force wr).2.regs = bus.regs)
      ∧ (∀ wr, (wr ≠ ErrorCode.ERROR_OK ∨ (force = false ∧ (r, g, b) = s.button_color_)) →
          ((set_button_color s bus r g b force wr).1.button_color_
              = committed_color (set_button_color s bus r g b force wr).2
            ↔ (r, g, b) = committed_color bus)) := by
  have hcache := cache_after_set_button_color s bus r g b force
  have hregs : ∀ wr, (wr ≠ ErrorCode.ERROR_OK ∨ (force = false ∧ (r, g, b) = s.button_color_)) →
      (set_button_color s bus r g b force wr).2.regs = bus.regs := by
    intro wr hw
    by_cases hc : (!force && decide ((r, g, b) = s.button_color_)) = true
    · simp only [set_button_color, hc]
      simp
    · have hfail : wr ≠ ErrorCode.ERROR_OK := by
        rcases hw with hw | ⟨hf, he⟩
        · exact hw
        · exact absurd (by simp [hf, he]) hc
      simp only [set_button_color, hc]
      funext i
      simp [write_register, hfail]
  refine ⟨hcache, ?_, hregs, ?_⟩
  · intro h
    by_cases hc : (!force && decide ((r, g, b) = s.button_color_)) = true
    · have hf : force = false := by
        cases force
        · rfl
        · simp at hc
      have he : (r, g, b) = s.button_color_ := by
        simp only [Bool.and_eq_true, decide_eq_true_eq] at hc
        exact hc.2
      have hinv : s.button_color_ = committed_color bus := by
        rcases h with h | h | h
        · exact h
        · rw [hf] at h
          cases h
        · exact absurd he h
      simp only [set_button_color, hc]
      exact hinv
    · have h3 : ((3 : Byte) : Nat) = 3 := rfl
      simp only [set_button_color, hc]
      simp [write_register, committed_color, RGBBUTTON_RED_REG, RGBBUTTON_GREEN_REG,
        RGBBUTTON_BLUE_REG, h3]
  · intro wr hw
    have hcom : committed_color (set_button_color s bus r g b force wr).2
        = committed_color bus := by
      simp only [committed_color, hregs wr hw]
    rw [hcache wr, hcom]

/-- C10, amended, at three concrete calls from a cache and a device that both hold
`(0, 0, 0)`: a successful change to `(1, 2, 3)`, after which cache and device agree; the
same change with the write not acknowledged, after which the device still holds
`(0, 0, 0)` and the cache `(1, 2, 3)`; and the unforced retry of `(1, 2, 3)` after that,
which is suppressed and leaves the two apart. -/
theorem color_cache_after_set_witness :
    ((sample_driver.button_color_ = committed_color sample_bus ∨ false = true
          ∨ ((1 : Byte), (2 : Byte), (3 : Byte)) ≠ sample_driver.button_color_)
        ∧ (set_button_color sample_driver sample_bus 1 2 3 false
              ErrorCode.ERROR_OK).1.button_color_
            = committed_color (set_button_color sample_driver sample_bus 1 2 3 false
                ErrorCode.ERROR_OK).2)
      ∧ ((ErrorCode.ERROR_NOT_ACKNOWLEDGED ≠ ErrorCode.ERROR_OK
          ∧ ((1 : Byte), (2 : Byte), (3 : Byte)) ≠ committed_color sample_bus)
        ∧ (set_button_color sample_driver sample_bus 1 2 3 false
              ErrorCode.ERROR_NOT_ACKNOWLEDGED).2.regs = sample_bus.regs
        ∧ (set_button_color sample_driver sample_bus 1 2 3 false
              ErrorCode.ERROR_NOT_ACKNOWLEDGED).1.button_color_
            ≠ committed_color (set_button_color sample_driver sample_bus 1 2 3 false
                ErrorCode.ERROR_NOT_ACKNOWLEDGED).2)
      ∧ (((1 : Byte), (2 : Byte), (3 : Byte))
            = (set_button_color sample_driver sample_bus 1 2 3 false
                ErrorCode.ERROR_NOT_ACKNOWLEDGED).1.button_color_
        ∧ (set_button_color
              (set_button_color sample_driver sample_bus 1 2 3 false
                ErrorCode.ERROR_NOT_ACKNOWLEDGED).1
              (set_button_color sample_driver sample_bus 1 2 3 false
                ErrorCode.ERROR_NOT_ACKNOWLEDGED).2
              1 2 3 false ErrorCode.ERROR_OK).2.regs
            = (set_button_color sample_driver sample_bus 1 2 3 false
                ErrorCode.ERROR_NOT_ACKNOWLEDGED).2.regs) :=
  ⟨⟨by decide,
      (color_cache_after_set sample_driver sample_bus 1 2 3 false).2.1 (by decide)⟩,
    ⟨⟨by decide, by decide⟩,
      (color_cache_after_set sample_driver sample_bus 1 2 3 false).2.2.1
        ErrorCode.ERROR_NOT_ACKNOWLEDGED (Or.inl (by decide)),
      fun heq =>
        absurd
          (((color_cache_after_set sample_driver sample_bus 1 2 3 false).2.2.2
            ErrorCode.ERROR_NOT_ACKNOWLEDGED (Or.inl (by decide))).1 heq)
          (by decide)⟩,
    ⟨by decide,
      (color_cache_after_set
          (set_button_color sample_driver sample_bus 1 2 3 false
            ErrorCode.ERROR_NOT_ACKNOWLEDGED).1
          (set_button_color sample_driver sample_bus 1 2 3 false
            ErrorCode.ERROR_NOT_ACKNOWLEDGED).2
          1 2 3 false).2.2.1 ErrorCode.ERROR_OK (Or.inr ⟨rfl, by decide⟩)⟩⟩

/-! ## Address and product-ID helpers, getters -/

/-- C11: `get_i2c_address()` gives back the driver with every field as before the call, the
device-address field included, whatever the read reports; it issues exactly one 1-byte read
of register `0x00`, at which moment the device-address field is 0, and returns the byte read.
A later `set_button_color` or `get_button_state` therefore runs exactly as it would have
without the call, with the original address on its register operation. -/
theorem get_i2c_address_restores (s : Driver) (bus : I2CBus) (reply : ReadReply) :
    (get_i2c_address s bus reply).2.1 = s
      ∧ (get_i2c_address s bus reply).2.1.deviceAddr_ = s.deviceAddr_
      ∧ (get_i2c_address s bus reply).2.2.log = bus.log ++ [BusOp.read s.address_ 0 0x00 1]
      ∧ (get_i2c_address s bus reply).2.2.regs = bus.regs
      ∧ (get_i2c_address s bus reply).1 = reply.buf 0
      ∧ (∀ next, (get_button_state (get_i2c_address s bus reply).2.1 bus next).2.2.log
            = bus.log ++ [BusOp.read s.address_ s.deviceAddr_ 0x04 1])
      ∧ (∀ r g b wr, (set_button_color (get_i2c_address s bus reply).2.1 bus r g b true wr).2.log
            = bus.log ++ [BusOp.write s.address_ s.deviceAddr_ 0x01 [r, g, b]]) := by
  have hs : (get_i2c_address s bus reply).2.1 = s := rfl
  refine ⟨hs, by rw [hs], rfl, rfl, rfl, ?_, ?_⟩
  · intro next
    rw [hs]
    rfl
  · intro r g b wr
    rw [hs]
    simp [set_button_color, write_register, RGBBUTTON_RED_REG]

/-- C12: `get_button_color_hex()` returns `(r << 16) | (g << 8) | b` for the cached colour
`(r, g, b)`: the sum the code computes equals that bitwise OR, is below `2 ^ 24`, and carries
red in bits 16-23, green in bits 8-15 and blue in bits 0-7.  `get_button_color_rgb()` yields
the cached triple.  Both are functions of the driver alone that give back a value only: no
register operation, no field changed. -/
theorem color_getters (s : Driver) :
    get_button_color_hex s
        = ((s.button_color_.1.val <<< 16) ||| (s.button_color_.2.1.val <<< 8)
            ||| s.button_color_.2.2.val)
      ∧ get_button_color_hex s < 2 ^ 24
      ∧ (get_button_color_hex s >>> 16) &&& 0xFF = s.button_color_.1.val
      ∧ (get_button_color_hex s >>> 8) &&& 0xFF = s.button_color_.2.1.val
      ∧ get_button_color_hex s &&& 0xFF = s.button_color_.2.2.val
      ∧ get_button_color_rgb s = s.button_color_ := by
  have hr : s.button_color_.1.val < 256 := s.button_color_.1.isLt
  have hg : s.button_color_.2.1.val < 256 := s.button_color_.2.1.isLt
  have hb : s.button_color_.2.2.val < 256 := s.button_color_.2.2.isLt
  have hx := get_button_color_hex_eq s
  refine ⟨?_, ?_, ?_, ?_, ?_, rfl⟩
  · rw [shift_or_three]
    exact hx
  · omega
  · rw [and_0xFF, Nat.shiftRight_eq_div_pow]
    omega
  · rw [and_0xFF, Nat.shiftRight_eq_div_pow]
    omega
  · rw [and_0xFF]
    omega

/-! ## Separation of colour state and button state -/

/-- C13: `get_button_state()` leaves the cached colour as it was and issues no register
write (its only register operation is the read of `0x04`, and the device's registers stay as
they were); each of the three `set_button_color` entry points leaves `button_state_` and the
sink (its held state and its history) as they were and issues no register read: what it adds
to the log is nothing or one write. -/
theorem state_separation (s : Driver) (bus : I2CBus) (reply : ReadReply) (r g b : Byte)
    (V : Nat) (force : Bool) (wr : ErrorCode) :
    (get_button_state s bus reply).2.1.button_color_ = s.button_color_
      ∧ (get_button_state s bus reply).2.2.log
          = bus.log ++ [BusOp.read s.address_ s.deviceAddr_ 0x04 1]
      ∧ (get_button_state s bus reply).2.2.regs = bus.regs
      ∧ ((set_button_color s bus r g b force wr).1.button_state_ = s.button_state_
          ∧ (set_button_color s bus r g b force wr).1.button_sensor_ = s.button_sensor_
          ∧ ((set_button_color s bus r g b force wr).2.log = bus.log
              ∨ (set_button_color s bus r g b force wr).2.log
                  = bus.log ++ [BusOp.write s.address_ s.deviceAddr_ 0x01 [r, g, b]]))
      ∧ ((set_button_color_ulong s bus V force wr).1.button_state_ = s.button_state_
          ∧ (set_button_color_ulong s bus V force wr).1.button_sensor_ = s.button_sensor_
          ∧ ((set_button_color_ulong s bus V force wr).2.log = bus.log
              ∨ (set_button_color_ulong s bus V force wr).2.log
                  = bus.log ++ [BusOp.write s.address_ s.deviceAddr_ 0x01
                      [toUInt8 ((V >>> 16) &&& 0xFF), toUInt8 ((V >>> 8) &&& 0xFF),
                        toUInt8 (V &&& 0xFF)]]))
      ∧ ((set_button_color_enum s bus V force wr).1.button_state_ = s.button_state_
          ∧ (set_button_color_enum s bus V force wr).1.button_sensor_ = s.button_sensor_
          ∧ ((set_button_color_enum s bus V force wr).2.log = bus.log
              ∨ (set_button_color_enum s bus V force wr).2.log
                  = bus.log ++ [BusOp.write s.address_ s.deviceAddr_ 0x01
                      [toUInt8 ((V >>> 16) &&& 0xFF), toUInt8 ((V >>> 8) &&& 0xFF),
                        toUInt8 (V &&& 0xFF)]])) := by
  have hset : ∀ x y z : Byte,
      (set_button_color s bus x y z force wr).1.button_state_ = s.button_state_
        ∧ (set_button_color s bus x y z force wr).1.button_sensor_ = s.button_sensor_
        ∧ ((set_button_color s bus x y z force wr).2.log = bus.log
            ∨ (set_button_color s bus x y z force wr).2.log
                = bus.log ++ [BusOp.write s.address_ s.deviceAddr_ 0x01 [x, y, z]]) := by
    intro x y z
    by_cases hc : (!force && decide ((x, y, z) = s.button_color_)) = true
    · simp only [set_button_color, hc]
      simp
    · simp only [set_button_color, hc]
      simp [write_register, RGBBUTTON_RED_REG]
  refine ⟨?_, rfl, rfl, hset r g b, hset _ _ _, hset _ _ _⟩
  cases hs : s.button_sensor_ with
  | none => simp [get_button_state, read_register, hs]
  | some sensor =>
    obtain ⟨hst, st, rc⟩ := sensor
    by_cases h0 : reply.buf 0 = 0 <;> cases hst <;> cases st <;>
      simp [get_button_state, read_register, hs, h0]

/-! ## Identification, continued -/

/-- C16: in every outcome (success, transport error, product-ID mismatch) `begin()` issues
exactly one register operation, the 2-byte read at `0x09`, and gives back the driver with
every field as before the call (colour cache, button state, device address, failed flag);
the registers of the device stay as they were. -/
theorem begin_stateless (s : Driver) (bus : I2CBus) (reply : ReadReply) :
    (begin s bus reply).2.1 = s
      ∧ (begin s bus reply).2.2.log = bus.log ++ [BusOp.read s.address_ s.deviceAddr_ 0x09 2]
      ∧ (begin s bus reply).2.2.regs = bus.regs := by
  unfold begin read_register
  simp only [RGBBUTTON_PID_MSB_REG]
  split <;> [exact ⟨rfl, rfl, rfl⟩; (split <;> exact ⟨rfl, rfl, rfl⟩)]

/-- C14: `get_pid()` issues one 2-byte read at register `0x09`, the register `begin()`
reads, and returns `(msb << 8) | lsb` of the two bytes read, the first byte being the most
significant; the driver is given back as it was.  So whenever `begin()` has returned true on
some answer and the product-ID read is answered with the same two bytes, `get_pid()` returns
`0x43DF`. -/
theorem get_pid_value (s : Driver) (bus : I2CBus) (reply : ReadReply) :
    (get_pid s bus reply).2.2.log = bus.log ++ [BusOp.read s.address_ s.deviceAddr_ 0x09 2]
      ∧ (get_pid s bus reply).1 = ((reply.buf 0).val <<< 8) ||| (reply.buf 1).val
      ∧ (get_pid s bus reply).2.1 = s
      ∧ ∀ (s0 : Driver) (bus0 : I2CBus) (idReply : ReadReply),
          (begin s0 bus0 idReply).1 = true → reply.buf 0 = idReply.buf 0
            → reply.buf 1 = idReply.buf 1 → (get_pid s bus reply).1 = 0x43DF := by
  have hv : (get_pid s bus reply).1 = (reply.buf 0).val * 256 + (reply.buf 1).val :=
    concat_bytes_eq (reply.buf 0) (reply.buf 1)
  refine ⟨rfl, ?_, rfl, ?_⟩
  · rw [shift_or_bytes]
    exact hv
  · intro s0 bus0 idReply hb h0 h1
    rw [hv, h0, h1]
    exact ((begin_fst s0 bus0 idReply).1 hb).2

/-- C14 at a concrete run: identification answered with `{0x43, 0xDF}`, then the product-ID
read answered with the same bytes under a failing status, which `get_pid()` does not
consult. -/
theorem get_pid_value_witness :
    (begin sample_driver sample_bus (sample_id_reply ErrorCode.ERROR_OK 0x43 0xDF)).1 = true
      ∧ (get_pid sample_driver sample_bus
          (sample_id_reply ErrorCode.ERROR_TIMEOUT 0x43 0xDF)).1 = 0x43DF :=
  ⟨by decide,
    (get_pid_value sample_driver sample_bus
        (sample_id_reply ErrorCode.ERROR_TIMEOUT 0x43 0xDF)).2.2.2
      sample_driver sample_bus (sample_id_reply ErrorCode.ERROR_OK 0x43 0xDF)
      (by decide) rfl rfl⟩

/-! ## Setup -/

/-- C15: `setup()` applies the default colour only when identification succeeds.  When
`begin()` returns false, `setup()` raises the failed flag and changes no other field (the
colour cache stays), and its only register operation is the read of `begin()`: no write.
When `begin()` returns true, `setup()` issues, after the two product-ID reads, exactly one
write: the three bytes of the default colour `d`, unpacked as `(d >> 16) & 0xFF`,
`(d >> 8) & 0xFF`, `d & 0xFF`, at register `0x01`, whatever the cache holds; the cache ends
equal to that triple and no other field, the failed flag included, changes. -/
theorem setup_flow (s : Driver) (bus : I2CBus) (idReply pidReply : ReadReply)
    (wr : ErrorCode) :
    ((begin s bus idReply).1 = false →
        (setup s bus idReply pidReply wr).1 = { s with failed := true }
          ∧ (setup s bus idReply pidReply wr).2.log
              = bus.log ++ [BusOp.read s.address_ s.deviceAddr_ 0x09 2]
          ∧ (setup s bus idReply pidReply wr).2.regs = bus.regs)
      ∧ ((begin s bus idReply).1 = true →
        (setup s bus idReply pidReply wr).1
            = { s with button_color_ :=
                  (toUInt8 ((s.default_color_ >>> 16) &&& 0xFF),
                    toUInt8 ((s.default_color_ >>> 8) &&& 0xFF),
                    toUInt8 (s.default_color_ &&& 0xFF)) }
          ∧ (setup s bus idReply pidReply wr).1.failed = s.failed
          ∧ (setup s bus idReply pidReply wr).2.log
              = bus.log ++ [BusOp.read s.address_ s.deviceAddr_ 0x09 2,
                  BusOp.read s.address_ s.deviceAddr_ 0x09 2,
                  BusOp.write s.address_ s.deviceAddr_ 0x01
                    [toUInt8 ((s.default_color_ >>> 16) &&& 0xFF),
                      toUInt8 ((s.default_color_ >>> 8) &&& 0xFF),
                      toUInt8 (s.default_color_ &&& 0xFF)]]) := by
  have hsnd := begin_snd s bus idReply
  rcases hb : begin s bus idReply with ⟨ok, s1, bus1⟩
  rw [hb] at hsnd
  simp only [Prod.mk.injEq] at hsnd
  obtain ⟨hs1, hbus1⟩ := hsnd
  subst hs1 hbus1
  constructor
  · intro hok
    simp only at hok
    subst hok
    simp [setup, hb]
  · intro hok
    simp only at hok
    subst hok
    simp [setup, hb, get_pid, read_register, set_button_color_ulong, set_button_color,
      write_register, RGBBUTTON_PID_MSB_REG, RGBBUTTON_RED_REG]

/-- C15 at two concrete runs of a driver whose default colour `0x00FF00` is not the cached
one: identification refused by a wrong product ID, and identification passed. -/
theorem setup_flow_witness :
    ((begin sample_driver sample_bus (sample_id_reply ErrorCode.ERROR_OK 0 0)).1 = false
        ∧ (setup sample_driver sample_bus (sample_id_reply ErrorCode.ERROR_OK 0 0)
              (sample_id_reply ErrorCode.ERROR_OK 0 0) ErrorCode.ERROR_OK).2.log
            = sample_bus.log
              ++ [BusOp.read sample_driver.address_ sample_driver.deviceAddr_ 0x09 2])
      ∧ ((begin sample_driver sample_bus (sample_id_reply ErrorCode.ERROR_OK 0x43 0xDF)).1
            = true
        ∧ (setup sample_driver sample_bus (sample_id_reply ErrorCode.ERROR_OK 0x43 0xDF)
              (sample_id_reply ErrorCode.ERROR_OK 0x43 0xDF)
              ErrorCode.ERROR_OK).1.button_color_ = (0x00, 0xFF, 0x00)) :=
  ⟨⟨by decide,
      ((setup_flow sample_driver sample_bus (sample_id_reply ErrorCode.ERROR_OK 0 0)
        (sample_id_reply ErrorCode.ERROR_OK 0 0) ErrorCode.ERROR_OK).1 (by decide)).2.1⟩,
    ⟨by decide, by decide⟩⟩

/-! ## Failed reads of the status register -/

/-- C17, as stated, fails: `get_button_state()` does not consult the status of its read.
With a sink that has no recorded state, a read that times out still publishes (here the
byte 0 left in the buffer gives "released"); with a sink holding "released" and the byte 1
left in the buffer, the failed read publishes "pressed". -/
theorem failed_read_publishes_counterexample :
    (sample_reply ErrorCode.ERROR_TIMEOUT 0).status ≠ ErrorCode.ERROR_OK
      ∧ (sample_driver_sink false false).button_sensor_
          = some { has_state := false, state := false, received := [] }
      ∧ notifications (sample_driver_sink false false) = []
      ∧ notifications (get_button_state (sample_driver_sink false false) sample_bus
            (sample_reply ErrorCode.ERROR_TIMEOUT 0)).2.1 = [false]
      ∧ notifications (sample_driver_sink true false) = []
      ∧ notifications (get_button_state (sample_driver_sink true false) sample_bus
            (sample_reply ErrorCode.ERROR_TIMEOUT 1)).2.1 = [true] := by
  refine ⟨?_, ?_, ?_, ?_, ?_, ?_⟩ <;> decide

/-- C17, amended: with a sink present and a status-register read that reports a transport
failure, `get_button_state()` emits no notification exactly when the sink already has a
recorded state equal to `byte != 0` for the byte found in the buffer; otherwise it emits
one notification, carrying `byte != 0`. -/
theorem failed_read_edge_rule (s : Driver) (bus : I2CBus) (reply : ReadReply)
    (sensor : BinarySensor) (hs : s.button_sensor_ = some sensor)
    (_hf : reply.status ≠ ErrorCode.ERROR_OK) :
    (notifications (get_button_state s bus reply).2.1 = notifications s ↔
        sensor.has_state = true ∧ sensor.state = decide (reply.buf 0 ≠ 0))
      ∧ (notifications (get_button_state s bus reply).2.1 = notifications s
          ∨ notifications (get_button_state s bus reply).2.1
              = notifications s ++ [decide (reply.buf 0 ≠ 0)]) := by
  obtain ⟨hst, st, rc⟩ := sensor
  by_cases h0 : reply.buf 0 = 0 <;> cases hst <;> cases st <;>
    simp [get_button_state, read_register, notifications, hs, h0, BinarySensor.publish_state]

/-- C17, amended, at a concrete poll: a read that times out, the byte 0 in the buffer and a
sink holding "released". -/
theorem failed_read_edge_rule_witness :
    ((sample_driver_sink true false).button_sensor_
          = some { has_state := true, state := false, received := [] }
        ∧ (sample_reply ErrorCode.ERROR_TIMEOUT 0).status ≠ ErrorCode.ERROR_OK)
      ∧ notifications (get_button_state (sample_driver_sink true false) sample_bus
            (sample_reply ErrorCode.ERROR_TIMEOUT 0)).2.1
          = notifications (sample_driver_sink true false) :=
  ⟨⟨rfl, by decide⟩,
    ((failed_read_edge_rule (sample_driver_sink true false) sample_bus
        (sample_reply ErrorCode.ERROR_TIMEOUT 0)
        { has_state := true, state := false, received := [] } rfl (by decide)).1).2
      ⟨rfl, by decide⟩⟩

/-! ## Packing and unpacking -/

/-- C19: unpacking `get_button_color_hex()` with `(h >> 16) & 0xFF`, `(h >> 8) & 0xFF`,
`h & 0xFF` gives back the cached colour channel for channel; so the packed
`set_button_color(get_button_color_hex(), false)` issues no register operation and gives
back the driver (its cache included) and the bus as they were. -/
theorem unpack_inverts_pack (s : Driver) (bus : I2CBus) (wr : ErrorCode) :
    (toUInt8 ((get_button_color_hex s >>> 16) &&& 0xFF),
        toUInt8 ((get_button_color_hex s >>> 8) &&& 0xFF),
        toUInt8 (get_button_color_hex s &&& 0xFF)) = s.button_color_
      ∧ set_button_color_ulong s bus (get_button_color_hex s) false wr = (s, bus) := by
  obtain ⟨h1, h2, h3⟩ := unpack_hex s
  constructor
  · rw [h1, h2, h3]
  · simp only [set_button_color_ulong, h1, h2, h3]
    simp [set_button_color]

/-! ## Sink synchronisation -/

/-- The sink after one `update()`: it holds `raw != 0`, and its history has grown by that
value when it had no state or held another one. -/
theorem update_sensor (s : Driver) (bus : I2CBus) (reply : ReadReply) (sensor : BinarySensor)
    (hs : s.button_sensor_ = some sensor) :
    (update s bus reply).1.button_sensor_
      = some { has_state := true, state := decide (reply.buf 0 ≠ 0),
               received := sensor.received
                 ++ (if !sensor.has_state || (sensor.state != decide (reply.buf 0 ≠ 0))
                      then [decide (reply.buf 0 ≠ 0)] else []) } := by
  obtain ⟨hst, st, rc⟩ := sensor
  by_cases h0 : reply.buf 0 = 0 <;> cases hst <;> cases st <;>
    simp [update, get_button_state, read_register, hs, h0, BinarySensor.publish_state]

/-- From a sink that holds a state, a run of `update()` calls adds to the history exactly
the polled values that differ from the value before them. -/
theorem run_updates_changes (rest : List ReadReply) :
    ∀ (s : Driver) (bus : I2CBus) (sensor : BinarySensor),
      s.button_sensor_ = some sensor → sensor.has_state = true →
      notifications (run_updates s bus rest).1
        = notifications s
          ++ changes sensor.state (rest.map fun r => decide (r.buf 0 ≠ 0)) := by
  induction rest with
  | nil =>
    intro s bus sensor _ _
    simp [run_updates, changes]
  | cons r rs ih =>
    intro s bus sensor hs hh
    have hstep := update_sensor s bus r sensor hs
    have hrec := ih (update s bus r).1 (update s bus r).2 _ hstep rfl
    have hn0 : notifications s = sensor.received := by simp [notifications, hs]
    have hn1 : notifications (update s bus r).1
        = sensor.received
          ++ (if !sensor.has_state || (sensor.state != decide (r.buf 0 ≠ 0))
                then [decide (r.buf 0 ≠ 0)] else []) := by
      simp [notifications, hstep]
    rw [run_updates, hrec, hn1, hn0, hh]
    simp only [List.map_cons, changes]
    cases hv : decide (r.buf 0 ≠ 0) <;> cases hst : sensor.state <;> simp

/-- C18: with a sink present, after `get_button_state()` the sink has a recorded state, and
that state equals both `button_state_` and the value returned.  Hence over any further polls
the notifications added after the first poll are exactly the polled values that differ from
the value of the poll before them, and their number is the number of such positions. -/
theorem sink_synchronised (s : Driver) (bus : I2CBus) (reply : ReadReply)
    (rest : List ReadReply) (sensor : BinarySensor) (hs : s.button_sensor_ = some sensor) :
    (∃ held, (get_button_state s bus reply).2.1.button_sensor_ = some held
        ∧ held.has_state = true
        ∧ held.state = (get_button_state s bus reply).2.1.button_state_
        ∧ held.state = (get_button_state s bus reply).1)
      ∧ notifications (run_updates (get_button_state s bus reply).2.1
            (get_button_state s bus reply).2.2 rest).1
          = notifications (get_button_state s bus reply).2.1
            ++ changes (decide (reply.buf 0 ≠ 0)) (rest.map fun r => decide (r.buf 0 ≠ 0))
      ∧ (notifications (run_updates (get_button_state s bus reply).2.1
            (get_button_state s bus reply).2.2 rest).1).length
          = (notifications (get_button_state s bus reply).2.1).length
            + (changes (decide (reply.buf 0 ≠ 0))
                (rest.map fun r => decide (r.buf 0 ≠ 0))).length := by
  have hstep : (get_button_state s bus reply).2.1.button_sensor_ = _ :=
    update_sensor s bus reply sensor hs
  have hret := get_button_state_fst s bus reply
  have hstate : (get_button_state s bus reply).2.1.button_state_
      = (get_button_state s bus reply).1 := rfl
  have hrun := run_updates_changes rest (get_button_state s bus reply).2.1
    (get_button_state s bus reply).2.2 _ hstep rfl
  refine ⟨⟨_, hstep, rfl, ?_, ?_⟩, hrun, ?_⟩
  · rw [hstate, hret]
  · rw [hret]
  · rw [hrun, List.length_append]

/-- C18 at a concrete run: a sink without state, a first poll reading 0, then polls reading
1, 1, 0: one notification for the first poll, two after it. -/
theorem sink_synchronised_witness :
    (sample_driver_sink false false).button_sensor_
        = some { has_state := false, state := false, received := [] }
      ∧ notifications (get_button_state (sample_driver_sink false false) sample_bus
            (sample_reply ErrorCode.ERROR_OK 0)).2.1 = [false]
      ∧ notifications (run_updates
            (get_button_state (sample_driver_sink false false) sample_bus
              (sample_reply ErrorCode.ERROR_OK 0)).2.1
            (get_button_state (sample_driver_sink false false) sample_bus
              (sample_reply ErrorCode.ERROR_OK 0)).2.2
            [sample_reply ErrorCode.ERROR_OK 1, sample_reply ErrorCode.ERROR_OK 1,
              sample_reply ErrorCode.ERROR_OK 0]).1
          = notifications (get_button_state (sample_driver_sink false false) sample_bus
              (sample_reply ErrorCode.ERROR_OK 0)).2.1
            ++ changes (decide ((sample_reply ErrorCode.ERROR_OK 0).buf 0 ≠ 0))
                ([sample_reply ErrorCode.ERROR_OK 1, sample_reply ErrorCode.ERROR_OK 1,
                  sample_reply ErrorCode.ERROR_OK 0].map fun r => decide (r.buf 0 ≠ 0))
      ∧ changes (decide ((sample_reply ErrorCode.ERROR_OK 0).buf 0 ≠ 0))
            ([sample_reply ErrorCode.ERROR_OK 1, sample_reply ErrorCode.ERROR_OK 1,
              sample_reply ErrorCode.ERROR_OK 0].map fun r => decide (r.buf 0 ≠ 0))
          = [true, false] :=
  ⟨rfl, by decide,
    (sink_synchronised (sample_driver_sink false false) sample_bus
      (sample_reply ErrorCode.ERROR_OK 0)
      [sample_reply ErrorCode.ERROR_OK 1, sample_reply ErrorCode.ERROR_OK 1,
        sample_reply ErrorCode.ERROR_OK 0]
      { has_state := false, state := false, received := [] } rfl).2.1,
    by decide⟩

/-! ## Write confinement -/

/-- What the byte-triple `set_button_color` adds to the log is nothing or one 3-byte write at
register `0x01`, and the device's registers outside `0x01..0x03` stay as they were. -/
theorem set_button_color_confined (s : Driver) (bus : I2CBus) (r g b : Byte) (force : Bool)
    (wr : ErrorCode) :
    ∃ issued, (set_button_color s bus r g b force wr).2.log = bus.log ++ issued
      ∧ (∀ a d reg data, BusOp.write a d reg data ∈ issued → reg = 0x01 ∧ data.length = 3)
      ∧ ∀ i, (i < 1 ∨ 3 < i) → (set_button_color s bus r g b force wr).2.regs i = bus.regs i := by
  by_cases hc : (!force && decide ((r, g, b) = s.button_color_)) = true
  · refine ⟨[], ?_, ?_, ?_⟩
    · simp only [set_button_color, hc]
      simp
    · intro a d reg data hm
      cases hm
    · intro i _
      simp only [set_button_color, hc]
      simp
  · refine ⟨[BusOp.write s.address_ s.deviceAddr_ 0x01 [r, g, b]], ?_, ?_, ?_⟩
    · simp only [set_button_color, hc]
      simp [write_register, RGBBUTTON_RED_REG]
    · intro a d reg data hm
      simp only [List.mem_singleton, BusOp.write.injEq] at hm
      obtain ⟨_, _, hreg, hdata⟩ := hm
      subst hreg hdata
      exact ⟨rfl, rfl⟩
    · intro i hi
      have h1 : ((1 : Byte) : Nat) = 1 := rfl
      have hout : ¬ (1 ≤ i ∧ i < 1 + 3) := by omega
      simp only [set_button_color, hc]
      simp [write_register, RGBBUTTON_RED_REG, h1, hout]

/-- A call that only logs reads keeps every write out of what it adds. -/
theorem reads_confined (bus bus1 : I2CBus) (issued : List BusOp)
    (hlog : bus1.log = bus.log ++ issued) (hregs : bus1.regs = bus.regs)
    (hread : ∀ a d reg data, BusOp.write a d reg data ∉ issued) :
    ∃ issued, bus1.log = bus.log ++ issued
      ∧ (∀ a d reg data, BusOp.write a d reg data ∈ issued → reg = 0x01 ∧ data.length = 3)
      ∧ ∀ i, (i < 1 ∨ 3 < i) → bus1.regs i = bus.regs i :=
  ⟨issued, hlog, fun a d reg data hm => absurd hm (hread a d reg data),
    fun i _ => by rw [hregs]⟩

/-- One call of any member function adds to the log only reads and 3-byte writes at register
`0x01`, and leaves the device's registers outside `0x01..0x03` as they were. -/
theorem run_call_confined (s : Driver) (bus : I2CBus) (call : Call) :
    ∃ issued, (run_call s bus call).2.log = bus.log ++ issued
      ∧ (∀ a d reg data, BusOp.write a d reg data ∈ issued → reg = 0x01 ∧ data.length = 3)
      ∧ ∀ i, (i < 1 ∨ 3 < i) → (run_call s bus call).2.regs i = bus.regs i := by
  cases call with
  | setup idReply pidReply wr =>
    have hsnd := begin_snd s bus idReply
    rcases hb : begin s bus idReply with ⟨ok, s1, bus1⟩
    rw [hb] at hsnd
    simp only [Prod.mk.injEq] at hsnd
    obtain ⟨hs1, hbus1⟩ := hsnd
    subst hs1 hbus1
    cases ok with
    | false =>
      refine reads_confined bus _ [BusOp.read s1.address_ s1.deviceAddr_ 0x09 2] ?_ ?_ ?_
      · simp [run_call, setup, hb]
      · simp [run_call, setup, hb]
      · intro a d reg data hm
        simp at hm
    | true =>
      obtain ⟨issued, hlog, hwr, hregs⟩ :=
        set_button_color_confined s1
          { bus with log := (bus.log ++ [BusOp.read s1.address_ s1.deviceAddr_ 0x09 2])
                      ++ [BusOp.read s1.address_ s1.deviceAddr_ 0x09 2] }
          (toUInt8 ((s1.default_color_ >>> 16) &&& 0xFF))
          (toUInt8 ((s1.default_color_ >>> 8) &&& 0xFF))
          (toUInt8 (s1.default_color_ &&& 0xFF)) true wr
      refine ⟨[BusOp.read s1.address_ s1.deviceAddr_ 0x09 2,
          BusOp.read s1.address_ s1.deviceAddr_ 0x09 2] ++ issued, ?_, ?_, ?_⟩
      · have hrun : (run_call s1 bus (Call.setup idReply pidReply wr)).2
            = (set_button_color s1
                { bus with log := (bus.log ++ [BusOp.read s1.address_ s1.deviceAddr_ 0x09 2])
                            ++ [BusOp.read s1.address_ s1.deviceAddr_ 0x09 2] }
                (toUInt8 ((s1.default_color_ >>> 16) &&& 0xFF))
                (toUInt8 ((s1.default_color_ >>> 8) &&& 0xFF))
                (toUInt8 (s1.default_color_ &&& 0xFF)) true wr).2 := by
          simp [run_call, setup, hb, get_pid, read_register, set_button_color_ulong,
            RGBBUTTON_PID_MSB_REG]
        rw [hrun, hlog]
        simp
      · intro a d reg data hm
        rw [List.mem_append] at hm
        rcases hm with hm | hm
        · simp at hm
        · exact hwr a d reg data hm
      · intro i hi
        have hrun : (run_call s1 bus (Call.setup idReply pidReply wr)).2
            = (set_button_color s1
                { bus with log := (bus.log ++ [BusOp.read s1.address_ s1.deviceAddr_ 0x09 2])
                            ++ [BusOp.read s1.address_ s1.deviceAddr_ 0x09 2] }
                (toUInt8 ((s1.default_color_ >>> 16) &&& 0xFF))
                (toUInt8 ((s1.default_color_ >>> 8) &&& 0xFF))
                (toUInt8 (s1.default_color_ &&& 0xFF)) true wr).2 := by
          simp [run_call, setup, hb, get_pid, read_register, set_button_color_ulong,
            RGBBUTTON_PID_MSB_REG]
        rw [hrun, hregs i hi]
  | loop =>
    exact reads_confined bus _ [] (by simp [run_call, loop]) rfl
      (fun _ _ _ _ => List.not_mem_nil _)
  | update reply =>
    exact reads_confined bus _ [BusOp.read s.address_ s.deviceAddr_ 0x04 1] rfl rfl
      (fun a d reg data hm => by simp at hm)
  | set_button_color r g b force wr => exact set_button_color_confined s bus r g b force wr
  | set_button_color_ulong color force wr => exact set_button_color_confined s bus _ _ _ force wr
  | set_button_color_enum color force wr => exact set_button_color_confined s bus _ _ _ force wr
  | get_button_color_rgb =>
    exact reads_confined bus _ [] (by simp [run_call]) rfl (fun _ _ _ _ => List.not_mem_nil _)
  | get_button_color_hex =>
    exact reads_confined bus _ [] (by simp [run_call]) rfl (fun _ _ _ _ => List.not_mem_nil _)
  | get_button_state reply =>
    exact reads_confined bus _ [BusOp.read s.address_ s.deviceAddr_ 0x04 1] rfl rfl
      (fun a d reg data hm => by simp at hm)
  | begin reply =>
    refine reads_confined bus _ [BusOp.read s.address_ s.deviceAddr_ 0x09 2] ?_ ?_
      (fun a d reg data hm => by simp at hm)
    · simp [run_call, begin_snd]
    · simp [run_call, begin_snd]
  | get_i2c_address reply =>
    exact reads_confined bus _ [BusOp.read s.address_ 0 0x00 1] rfl rfl
      (fun a d reg data hm => by simp at hm)
  | get_pid reply =>
    exact reads_confined bus _ [BusOp.read s.address_ s.deviceAddr_ 0x09 2] rfl rfl
      (fun a d reg data hm => by simp at hm)

/-- C20: over every sequence of calls of the driver's member functions (`setup`, `loop`,
`update`, the three `set_button_color` entry points, the colour getters, `get_button_state`,
`begin`, `get_i2c_address`, `get_pid`), from any driver and bus and for any answers of the
transport, every register write added to the log is a write of 3 bytes starting at register
`0x01`; and every register of the device outside `0x01..0x03` (the address register `0x00`,
the button register `0x04`, the product-ID registers among them) keeps its value. -/
theorem write_confinement (calls : List Call) (s : Driver) (bus : I2CBus) :
    ∃ issued, (run_calls s bus calls).2.log = bus.log ++ issued
      ∧ (∀ a d reg data, BusOp.write a d reg data ∈ issued → reg = 0x01 ∧ data.length = 3)
      ∧ ∀ i, (i < 1 ∨ 3 < i) → (run_calls s bus calls).2.regs i = bus.regs i := by
  induction calls generalizing s bus with
  | nil =>
    exact reads_confined bus _ [] (by simp [run_calls]) rfl (fun _ _ _ _ => List.not_mem_nil _)
  | cons call rest ih =>
    obtain ⟨issued1, hlog1, hwr1, hregs1⟩ := run_call_confined s bus call
    obtain ⟨issued2, hlog2, hwr2, hregs2⟩ := ih (run_call s bus call).1 (run_call s bus call).2
    refine ⟨issued1 ++ issued2, ?_, ?_, ?_⟩
    · rw [run_calls, hlog2, hlog1, List.append_assoc]
    · intro a d reg data hm
      rw [List.mem_append] at hm
      rcases hm with hm | hm
      · exact hwr1 a d reg data hm
      · exact hwr2 a d reg data hm
    · intro i hi
      rw [run_calls, hregs2 i hi, hregs1 i hi]

end DFRobot_i2c_RGBButton
